import Mathlib

/-!
Shallow embedding of the echostream-terrafy object-to-configuration mapping
engine (`echostream_terrafy/objects.py`, `resources.py`, `data_sources.py`
and the document assembly in `__init__.py`).

Python dictionaries are modelled as insertion-ordered association lists,
Python exceptions as an explicit error type threaded through `Except`, and
filesystem writes as an explicit write log.  EchoStream entity names come
from GraphQL `String!` fields, so registry buckets are keyed by `String`;
a non-string name is modelled as a `TypeError`.
-/

namespace EchostreamTerrafy

/-- A decoded JSON-like Python value as it flows through the program.
`ref` stands for a `TerraformObjectReference`, observed only through the
address of the object it wraps; `tuple` is needed because
`ManagedNodeType._attributes` builds a Python tuple. -/
inductive Value where
  | null
  | bool (b : Bool)
  | int (n : Int)
  | str (s : String)
  | list (vs : List Value)
  | dict (kvs : List (String × Value))
  | tuple (vs : List Value)
  | ref (addr : String)

/-- Python `v is None`. -/
def Value.isNull : Value → Bool
  | .null => true
  | _ => false

/-- The Python exceptions the embedded code can raise: `KeyError` from a
dict subscript on a missing key and `TypeError` from a bad call or a bad
operand.  The repository defines no exception classes of its own. -/
inductive PyErr where
  | keyError (k : String)
  | typeError (msg : String)
  deriving DecidableEq, Repr

/-- Python `str()` of an exception: `KeyError` displays the repr of its
argument (the quoted key), `TypeError` its message. -/
def PyErr.message : PyErr → String
  | .keyError k => "\x27" ++ k ++ "\x27"
  | .typeError m => m

/-- An insertion-ordered string-keyed dictionary (Python `dict`). -/
abbrev Dict := List (String × Value)

/-- A decoded API payload (`UserDict` contents of a `TerraformObject`). -/
abbrev Payload := Dict

/-- Python `d[k]` lookup result, `none` when the key is absent. -/
def dlookup {α : Type} : List (String × α) → String → Option α
  | [], _ => none
  | (k, v) :: rest, key => if k = key then some v else dlookup rest key

/-- Python `d[k] = v`: overwrite in place (keeping the key position) when
the key exists, append otherwise. -/
def dinsert {α : Type} : List (String × α) → String → α → List (String × α)
  | [], key, v => [(key, v)]
  | (k, w) :: rest, key, v =>
      if k = key then (key, v) :: rest else (k, w) :: dinsert rest key v

/-- Python `self.get(key)`: `None` both when the key is absent and when it
is stored as `None`. -/
def pyGet (p : Payload) (k : String) : Value :=
  (dlookup p k).getD Value.null

/-- Python `self.get(key, default)`. -/
def pyGetD (p : Payload) (k : String) (d : Value) : Value :=
  (dlookup p k).getD d

/-- Python truthiness for the modelled values. -/
def truthy : Value → Bool
  | .null => false
  | .bool b => b
  | .int n => decide (n ≠ 0)
  | .str s => !s.isEmpty
  | .list vs => !vs.isEmpty
  | .dict kvs => !kvs.isEmpty
  | .tuple vs => !vs.isEmpty
  | .ref _ => true

/-- Python `self[k]` on a `UserDict`: `KeyError` when the key is absent. -/
def getItem (p : Payload) (k : String) : Except PyErr Value :=
  match dlookup p k with
  | some v => .ok v
  | none => .error (.keyError k)

/-- Python `v[k]` on an arbitrary value: dict subscript or `TypeError`. -/
def getItemV (v : Value) (k : String) : Except PyErr Value :=
  match v with
  | .dict d =>
      match dlookup d k with
      | some w => .ok w
      | none => .error (.keyError k)
  | _ => .error (.typeError "value is not subscriptable")

/-! ## Identifier normalizer (`objects.py` lines 27-28, 40-41, 59-62)

`__LOCAL_NAME_PATTERN = re.compile(r"[^A-Za-z0-9\_]")` and
`__CAMEL_CASE_PATTERN = re.compile(r"(?<!^)(?=[A-Z])")`; both regexes and
`str.lower` act codepoint by codepoint, so they are modelled on `Char`.
After the substitution pass only ASCII characters remain, hence ASCII
lowering is exact for the composed functions. -/

/-- Does the character match the class `[A-Za-z0-9_]`? -/
def isLocalNameChar (c : Char) : Bool :=
  (65 ≤ c.toNat && c.toNat ≤ 90) || (97 ≤ c.toNat && c.toNat ≤ 122) ||
    (48 ≤ c.toNat && c.toNat ≤ 57) || c.toNat == 95

/-- One step of `__LOCAL_NAME_PATTERN.sub("_", value)`. -/
def localNameSubChar (c : Char) : Char :=
  if isLocalNameChar c then c else '_'

/-- `str.lower` on one ASCII character. -/
def pyLowerChar (c : Char) : Char :=
  if 65 ≤ c.toNat && c.toNat ≤ 90 then Char.ofNat (c.toNat + 32) else c

/-- `TerraformObject._convert_to_local_name`:
`__LOCAL_NAME_PATTERN.sub("_", value).lower()`. -/
def convertToLocalName (s : String) : String :=
  String.mk ((s.toList.map localNameSubChar).map pyLowerChar)

/-- Insert `_` before each uppercase letter that is not the first
character: `__CAMEL_CASE_PATTERN.sub("_", key)`.  The boolean flag is true
exactly at the start of the string. -/
def camelSplit : Bool → List Char → List Char
  | _, [] => []
  | first, c :: rest =>
      if 65 ≤ c.toNat && c.toNat ≤ 90 then
        (if first then [c] else ['_', c]) ++ camelSplit false rest
      else
        c :: camelSplit false rest

/-- `convert_key` inside `TerraformObject._attributes`:
`__CAMEL_CASE_PATTERN.sub("_", key).lower()`. -/
def convertKey (s : String) : String :=
  String.mk ((camelSplit true s.toList).map pyLowerChar)

/-! ## Recursive value conversion (`objects.py` lines 43-48) -/

mutual

/-- `convert_value` inside `TerraformObject._attributes`: recursively
snake-case the keys of nested dicts and map over lists; any other value
(including a tuple, which is neither `list` nor `dict`) is returned
unchanged. -/
def convertValue : Value → Value
  | .list vs => .list (convertValueList vs)
  | .dict kvs => .dict (convertValueDict kvs)
  | v => v

def convertValueList : List Value → List Value
  | [] => []
  | v :: vs => convertValue v :: convertValueList vs

def convertValueDict : List (String × Value) → List (String × Value)
  | [] => []
  | (k, v) :: kvs => (convertKey k, convertValue v) :: convertValueDict kvs

end

/-! ## Base attribute computation (`objects.py` lines 50-57) -/

/-- The `for key in required` loop of `TerraformObject._attributes`:
`attributes[convert_key(key)] = convert_value(self[key])`, where `self[key]`
raises `KeyError` when the key is absent. -/
def addRequired (p : Payload) (d : Dict) : List String → Except PyErr Dict
  | [] => .ok d
  | k :: ks =>
      match dlookup p k with
      | some v => addRequired p (dinsert d (convertKey k) (convertValue v)) ks
      | none => .error (.keyError k)

/-- The `for key in optional` loop of `TerraformObject._attributes`: copy
the key only when `self.get(key)` is not `None`. -/
def addOptional (p : Payload) (d : Dict) : List String → Dict
  | [] => d
  | k :: ks =>
      addOptional p
        (if (pyGet p k).isNull then d
        else dinsert d (convertKey k) (convertValue (pyGet p k))) ks

/-! ## Terraform objects, addresses and references
(`objects.py` lines 99-108, `resources.py` lines 44-46,
`data_sources.py` lines 22-24) -/

/-- A constructed `TerraformObject` as observed by the rest of the run: a
cross-reference to it only ever uses its Terraform address. -/
structure TObj where
  address : String
  deriving DecidableEq, Repr

/-- `Resource.address`: `f"{self._object_type}.{self._local_name}"`. -/
def Resource.address (objectType localName : String) : String :=
  objectType ++ "." ++ localName

/-- `DataSource.address`: `f"data.{self._object_type}.{self._local_name}"`. -/
def DataSource.address (objectType localName : String) : String :=
  "data." ++ objectType ++ "." ++ localName

/-- `TerraformObjectReference(obj)`: the reference object stored in an
attribute map. -/
def mkRef (o : TObj) : Value :=
  .ref o.address

/-- `TerraformObjectReference.encode`:
`"${" + f"{self.obj.address}.name" + "}"`. -/
def refEncode (addr : String) : String :=
  "$\x7b" ++ addr ++ ".name\x7d"

/-- Call `TerraformObjectReference(obj=..., attr="name")`: the constructor
signature is `__init__(self, obj)`, so the extra keyword argument raises
`TypeError` after the `obj` argument has been evaluated. -/
def refCallWithAttr (_o : TObj) : Except PyErr Value :=
  .error (.typeError "TerraformObjectReference takes no keyword argument attr")

/-! ## Reference Registry (`objects.py` lines 9-14) -/

/-- One module-level registry bucket, e.g. `MESSAGE_TYPES`. -/
abbrev Bucket := List (String × TObj)

/-- The six module-level buckets of `objects.py`. -/
structure Registries where
  apps : Bucket
  functions : Bucket
  kmsKeys : Bucket
  managedNodeTypes : Bucket
  messageTypes : Bucket
  nodes : Bucket
  deriving DecidableEq, Repr

/-- `BUCKET[name]` on a registry bucket: `KeyError` on a miss. -/
def bucketGet (b : Bucket) : Value → Except PyErr TObj
  | .str s =>
      match dlookup b s with
      | some o => .ok o
      | none => .error (.keyError s)
  | _ => .error (.typeError "bucket keys are modelled as strings")

/-- `BUCKET[self["name"]] = self`, the registration statement each
name-keyed `__init__` runs right after `super().__init__`. -/
def registerName (b : Bucket) (p : Payload) (self : TObj) :
    Except PyErr Bucket :=
  match dlookup p "name" with
  | some (.str s) => .ok (dinsert b s self)
  | some _ => .error (.typeError "bucket keys are modelled as strings")
  | none => .error (.keyError "name")

namespace Resources

/-- `AppResource.__init__`: `APPS[self["name"]] = self`. -/
def AppResource.register (regs : Registries) (p : Payload) (self : TObj) :
    Except PyErr Registries :=
  (registerName regs.apps p self).map (fun b => { regs with apps := b })

/-- `FunctionResource.__init__`: `FUNCTIONS[self["name"]] = self`. -/
def FunctionResource.register (regs : Registries) (p : Payload) (self : TObj) :
    Except PyErr Registries :=
  (registerName regs.functions p self).map (fun b => { regs with functions := b })

/-- `NodeResource.__init__`: `NODES[self["name"]] = self`. -/
def NodeResource.register (regs : Registries) (p : Payload) (self : TObj) :
    Except PyErr Registries :=
  (registerName regs.nodes p self).map (fun b => { regs with nodes := b })

/-- `KmsKey.__init__`: `KMS_KEYS[self["name"]] = self`. -/
def KmsKey.register (regs : Registries) (p : Payload) (self : TObj) :
    Except PyErr Registries :=
  (registerName regs.kmsKeys p self).map (fun b => { regs with kmsKeys := b })

/-- `ManagedNodeType.__init__` (resource):
`MANAGED_NODE_TYPES[self["name"]] = self`. -/
def ManagedNodeType.register (regs : Registries) (p : Payload) (self : TObj) :
    Except PyErr Registries :=
  (registerName regs.managedNodeTypes p self).map
    (fun b => { regs with managedNodeTypes := b })

/-- `MessageType.__init__` (resource):
`MESSAGE_TYPES[self["name"]] = self`. -/
def MessageType.register (regs : Registries) (p : Payload) (self : TObj) :
    Except PyErr Registries :=
  (registerName regs.messageTypes p self).map
    (fun b => { regs with messageTypes := b })

end Resources

namespace DataSources

/-- `NodeDataSource.__init__`: `NODES[self["name"]] = self`. -/
def NodeDataSource.register (regs : Registries) (p : Payload) (self : TObj) :
    Except PyErr Registries :=
  (registerName regs.nodes p self).map (fun b => { regs with nodes := b })

/-- `FunctionDataSource.__init__`: `FUNCTIONS[self["name"]] = self`. -/
def FunctionDataSource.register (regs : Registries) (p : Payload) (self : TObj) :
    Except PyErr Registries :=
  (registerName regs.functions p self).map (fun b => { regs with functions := b })

/-- `ManagedNodeType.__init__` (data source):
`MANAGED_NODE_TYPES[self["name"]] = self`. -/
def ManagedNodeType.register (regs : Registries) (p : Payload) (self : TObj) :
    Except PyErr Registries :=
  (registerName regs.managedNodeTypes p self).map
    (fun b => { regs with managedNodeTypes := b })

/-- `MessageType.__init__` (data source):
`MESSAGE_TYPES[self["name"]] = self`. -/
def MessageType.register (regs : Registries) (p : Payload) (self : TObj) :
    Except PyErr Registries :=
  (registerName regs.messageTypes p self).map
    (fun b => { regs with messageTypes := b })

end DataSources

/-! ## Artifact paths and encode helpers (`resources.py` lines 22-46,
`objects.py` lines 90-96) -/

/-- `Resource._local_name` for a name-identified resource:
`self._convert_to_local_name(self.identity)` with `identity = self["name"]`.
`re.sub` on a non-string raises `TypeError`. -/
def localNameOf (p : Payload) : Except PyErr String :=
  match dlookup p "name" with
  | some (.str s) => .ok (convertToLocalName s)
  | some _ => .error (.typeError "re.sub expects a string")
  | none => .error (.keyError "name")

/-- `Resource.__artifacts_path` joined with a file name:
`path.join("artifacts", self._object_type, self._local_name, file_name)`. -/
def artifactPath (objectType localName fname : String) : String :=
  "artifacts/" ++ objectType ++ "/" ++ localName ++ "/" ++ fname

/-- `Resource._file`: a Terraform file-interpolation token pointing into
the artifacts tree. -/
def fileToken (objectType localName fname : String) : String :=
  "$\x7bfile(\"$\x7bpath.module\x7d/artifacts/" ++ objectType ++ "/" ++
    localName ++ "/" ++ fname ++ "\")\x7d"

/-- `TerraformObject.encode`:
`{ self._object_class: { self._object_type: { self._local_name: self._attributes } } }`. -/
def encodeWrap (objectClass objectType localName : String) (attrs : Value) :
    Value :=
  .dict [(objectClass, .dict [(objectType, .dict [(localName, attrs)])])]

/-- `with self._open_artifact(f) as fh: fh.write(content)`: opening creates
(or truncates) the file, so on a failing `content` the log still records an
empty file; `write` needs a `str` argument. -/
def writeStep (pathStr : String) (content : Except PyErr Value)
    (log : List (String × String)) :
    Except PyErr Unit × List (String × String) :=
  match content with
  | .ok (.str s) => (.ok (), log ++ [(pathStr, s)])
  | .ok _ => (.error (.typeError "write argument must be str"), log ++ [(pathStr, "")])
  | .error e => (.error e, log ++ [(pathStr, "")])

/-- `if <cond>: attributes[key] = <expr>` — the conditional-attribute
statement shape shared by the node kinds: when the condition holds, the
right-hand side is evaluated (it may raise) and stored under `key`. -/
def stepInsert (c : Bool) (key : String) (val : Except PyErr Value)
    (d : Dict) : Except PyErr Dict :=
  if c then val.map (fun v => dinsert d key v) else .ok d

namespace Resources

/-! ## MessageType (resource, `resources.py` lines 424-463) -/

/-- `TerraformObject._object_type` for `MessageType`. -/
def MessageType.objectType : String :=
  "echostream_" ++ convertKey "MessageType"

/-- `MessageType._attributes`: required `description`, `name`; optional
`requirements`; four unconditional artifact file tokens plus an optional
`readme` token. -/
def MessageType.attrs (p : Payload) : Except PyErr Dict :=
  match addRequired p [] ["description", "name"] with
  | .error e => .error e
  | .ok base =>
  let d1 := addOptional p base ["requirements"]
  match localNameOf p with
  | .error e => .error e
  | .ok l =>
  let tok := fun f => Value.str (fileToken MessageType.objectType l f)
  let d2 := dinsert d1 "auditor" (tok "auditor.py")
  let d3 := dinsert d2 "bitmapper_template" (tok "bitmapper_template.py")
  let d4 := dinsert d3 "processor_template" (tok "processor_template.py")
  let d5 := dinsert d4 "sample_message" (tok "sample_message.txt")
  .ok (if truthy (pyGet p "readme") then dinsert d5 "readme" (tok "readme.md") else d5)

/-- `MessageType.encode`: writes the four mandatory artifacts (and the
optional readme) first, then delegates to the base `encode`; the base
`encode` computes the attribute map only after those writes. -/
def MessageType.encode (p : Payload) :
    Except PyErr Value × List (String × String) :=
  match localNameOf p with
  | .error e => (.error e, [])
  | .ok l =>
  let ap := fun f => artifactPath MessageType.objectType l f
  match writeStep (ap "auditor.py") (getItem p "auditor") [] with
  | (.error e, log) => (.error e, log)
  | (.ok _, log1) =>
  match writeStep (ap "bitmapper_template.py") (getItem p "bitmapperTemplate") log1 with
  | (.error e, log) => (.error e, log)
  | (.ok _, log2) =>
  match writeStep (ap "processor_template.py") (getItem p "processorTemplate") log2 with
  | (.error e, log) => (.error e, log)
  | (.ok _, log3) =>
  match writeStep (ap "sample_message.txt") (getItem p "sampleMessage") log3 with
  | (.error e, log) => (.error e, log)
  | (.ok _, log4) =>
  match (if truthy (pyGet p "readme") then
          writeStep (ap "readme.md") (.ok (pyGet p "readme")) log4
        else (.ok (), log4)) with
  | (.error e, log) => (.error e, log)
  | (.ok _, log5) =>
  match MessageType.attrs p with
  | .error e => (.error e, log5)
  | .ok a => (.ok (encodeWrap "resource" MessageType.objectType l (.dict a)), log5)

/-! ## ManagedNodeType (resource, `resources.py` lines 383-421) -/

/-- `TerraformObject._object_type` for `ManagedNodeType`. -/
def ManagedNodeType.objectType : String :=
  "echostream_" ++ convertKey "ManagedNodeType"

/-- `ManagedNodeType._attributes`.  The source reads
`attributes = (super()._attributes,)` — the trailing comma makes
`attributes` a one-element tuple, so every later
`attributes[...] = ...` statement is item assignment on a tuple and raises
`TypeError`; with no optional field present the tuple itself is returned. -/
def ManagedNodeType.attrs (regs : Registries) (p : Payload) :
    Except PyErr Value :=
  match addRequired p [] ["description", "imageUri", "name"] with
  | .error e => .error e
  | .ok base0 =>
  let base := addOptional p base0 ["mountRequirements", "portRequirements"]
  let attributes := Value.tuple [Value.dict base]
  if truthy (pyGet p "configTemplate") then
    .error (.typeError "tuple object does not support item assignment")
  else if truthy (pyGet p "readme") then
    .error (.typeError "tuple object does not support item assignment")
  else if truthy (pyGet p "receiveMessageType") then
    match (getItemV (pyGet p "receiveMessageType") "name").bind
        (bucketGet regs.messageTypes) with
    | .error e => .error e
    | .ok _ => .error (.typeError "tuple object does not support item assignment")
  else if truthy (pyGet p "sendMessageType") then
    match (getItemV (pyGet p "sendMessageType") "name").bind
        (bucketGet regs.messageTypes) with
    | .error e => .error e
    | .ok _ => .error (.typeError "tuple object does not support item assignment")
  else .ok attributes

/-- `ManagedNodeType.encode`.  The first branch calls
`self._open_artifact("config_template.json", "w")`; `_open_artifact` takes
a single file name, so a present `configTemplate` raises `TypeError`
before anything is opened. -/
def ManagedNodeType.encode (regs : Registries) (p : Payload) :
    Except PyErr Value × List (String × String) :=
  if truthy (pyGet p "configTemplate") then
    (.error (.typeError "open artifact takes 2 positional arguments but 3 were given"), [])
  else
  match ((if truthy (pyGet p "readme") then
          match localNameOf p with
          | .error e => (Except.error e, ([] : List (String × String)))
          | .ok l =>
              writeStep (artifactPath ManagedNodeType.objectType l "readme.md")
                (.ok (pyGet p "readme")) []
        else (.ok (), [])) :
      Except PyErr Unit × List (String × String)) with
  | (.error e, log) => (.error e, log)
  | (.ok _, log1) =>
  match localNameOf p with
  | .error e => (.error e, log1)
  | .ok l =>
  match ManagedNodeType.attrs regs p with
  | .error e => (.error e, log1)
  | .ok a => (.ok (encodeWrap "resource" ManagedNodeType.objectType l a), log1)

/-! ## Edge (`resources.py` lines 263-285) -/

/-- `TerraformObject._object_type` for `Edge`. -/
def Edge.objectType : String :=
  "echostream_" ++ convertKey "Edge"

/-- `Edge.identity`: `f"{self["source"]["name"]}|{self["target"]["name"]}"`.
Names are GraphQL strings; only string names are modelled. -/
def Edge.identity (p : Payload) : Except PyErr String :=
  match getItem p "source" with
  | .error e => .error e
  | .ok s =>
    match getItemV s "name" with
    | .error e => .error e
    | .ok (.str sn) =>
        match getItem p "target" with
        | .error e => .error e
        | .ok t =>
          match getItemV t "name" with
          | .error e => .error e
          | .ok (.str tn) => .ok (sn ++ "|" ++ tn)
          | .ok _ => .error (.typeError "only string names are modelled")
    | .ok _ => .error (.typeError "only string names are modelled")

/-- `Resource._local_name` for an edge:
`self._convert_to_local_name(self.identity)`. -/
def Edge.localName (p : Payload) : Except PyErr String :=
  (Edge.identity p).map convertToLocalName

/-- `Edge._attributes`: optional `description`/`maxReceiveCount`, `source`
and `target` references resolved in `NODES`, and — when `kmsKey` is
truthy — a `TerraformObjectReference(obj=..., attr="name")` call on the
resolved `KMS_KEYS` entry. -/
def Edge.attrs (regs : Registries) (p : Payload) : Except PyErr Dict :=
  let d1 := addOptional p [] ["description", "maxReceiveCount"]
  match ((getItem p "source").bind (fun s => getItemV s "name")).bind
      (bucketGet regs.nodes) with
  | .error e => .error e
  | .ok so =>
  match ((getItem p "target").bind (fun t => getItemV t "name")).bind
      (bucketGet regs.nodes) with
  | .error e => .error e
  | .ok tgt =>
  let d2 := dinsert (dinsert d1 "source" (mkRef so)) "target" (mkRef tgt)
  stepInsert (truthy (pyGet p "kmsKey")) "kmskey"
    (((getItemV (pyGet p "kmsKey") "name").bind
      (bucketGet regs.kmsKeys)).bind refCallWithAttr) d2

/-! ## CrossTenantSendingNode (`resources.py` lines 220-260) -/

/-- `TerraformObject._object_type` for `CrossTenantSendingNode`. -/
def CrossTenantSendingNode.objectType : String :=
  "echostream_" ++ convertKey "CrossTenantSendingNode"

/-- `CrossTenantSendingNode._attributes`: base attributes, the
`ConfigResource` config token, `app` and `receiveMessageType` references,
the optional inline processor token, the two buggy
`TerraformObjectReference(obj=..., attr="name")` call sites, and the
forced `sequential_processing` default. -/
def CrossTenantSendingNode.attrs (regs : Registries) (p : Payload) :
    Except PyErr Dict :=
  match addRequired p [] ["name"] with
  | .error e => .error e
  | .ok base =>
  let d1 := addOptional p base
      ["description", "loggingLevel", "requirements", "sequentialProcessing"]
  match stepInsert (truthy (pyGet p "config")) "config"
      ((localNameOf p).map (fun l =>
        .str (fileToken CrossTenantSendingNode.objectType l "config.json")))
      d1 with
  | .error e => .error e
  | .ok d2 =>
  match ((getItem p "app").bind (fun a => getItemV a "name")).bind
      (bucketGet regs.apps) with
  | .error e => .error e
  | .ok ao =>
  match ((getItem p "receiveMessageType").bind (fun r => getItemV r "name")).bind
      (bucketGet regs.messageTypes) with
  | .error e => .error e
  | .ok ro =>
  let d3 := dinsert (dinsert d2 "app" (mkRef ao)) "receive_message_type" (mkRef ro)
  match stepInsert (truthy (pyGet p "inlineProcessor")) "inline_processor"
      ((localNameOf p).map (fun l =>
        .str (fileToken CrossTenantSendingNode.objectType l "inline_processor.py")))
      d3 with
  | .error e => .error e
  | .ok d4 =>
  match stepInsert (truthy (pyGet p "managedProcessor")) "managed_processor"
      (((getItemV (pyGet p "managedProcessor") "name").bind
        (bucketGet regs.functions)).bind refCallWithAttr) d4 with
  | .error e => .error e
  | .ok d5 =>
  match stepInsert (truthy (pyGet p "sendMessageType")) "send_message_type"
      (((getItemV (pyGet p "sendMessageType") "name").bind
        (bucketGet regs.messageTypes)).bind refCallWithAttr) d5 with
  | .error e => .error e
  | .ok d6 =>
  .ok (dinsert d6 "sequential_processing"
        ((dlookup d6 "sequential_processing").getD (Value.bool false)))

/-! ## ProcessorNode (`resources.py` lines 484-523) -/

/-- `TerraformObject._object_type` for `ProcessorNode`. -/
def ProcessorNode.objectType : String :=
  "echostream_" ++ convertKey "ProcessorNode"

/-- `ProcessorNode._attributes`: like `CrossTenantSendingNode` but without
an `app` reference, and its `managed_processor`/`send_message_type`
references are constructed positionally (no `attr` keyword). -/
def ProcessorNode.attrs (regs : Registries) (p : Payload) :
    Except PyErr Dict :=
  match addRequired p [] ["name"] with
  | .error e => .error e
  | .ok base =>
  let d1 := addOptional p base
      ["description", "loggingLevel", "requirements", "sequentialProcessing"]
  match stepInsert (truthy (pyGet p "config")) "config"
      ((localNameOf p).map (fun l =>
        .str (fileToken ProcessorNode.objectType l "config.json"))) d1 with
  | .error e => .error e
  | .ok d2 =>
  match ((getItem p "receiveMessageType").bind (fun r => getItemV r "name")).bind
      (bucketGet regs.messageTypes) with
  | .error e => .error e
  | .ok ro =>
  let d3 := dinsert d2 "receive_message_type" (mkRef ro)
  match stepInsert (truthy (pyGet p "inlineProcessor")) "inline_processor"
      ((localNameOf p).map (fun l =>
        .str (fileToken ProcessorNode.objectType l "inline_processor.py")))
      d3 with
  | .error e => .error e
  | .ok d4 =>
  match stepInsert (truthy (pyGet p "managedProcessor")) "managed_processor"
      (((getItemV (pyGet p "managedProcessor") "name").bind
        (bucketGet regs.functions)).map mkRef) d4 with
  | .error e => .error e
  | .ok d5 =>
  match stepInsert (truthy (pyGet p "sendMessageType")) "send_message_type"
      (((getItemV (pyGet p "sendMessageType") "name").bind
        (bucketGet regs.messageTypes)).map mkRef) d5 with
  | .error e => .error e
  | .ok d6 =>
  .ok (dinsert d6 "sequential_processing"
        ((dlookup d6 "sequential_processing").getD (Value.bool false)))

/-! ## BitmapRouterNode (`resources.py` lines 139-172) -/

/-- `TerraformObject._object_type` for `BitmapRouterNode`. -/
def BitmapRouterNode.objectType : String :=
  "echostream_" ++ convertKey "BitmapRouterNode"

/-- `BitmapRouterNode._attributes`.  `json.loads` from the Python standard
library (used on `self.get("routeTable", "{}")`) is passed in as `loads`. -/
def BitmapRouterNode.attrs (loads : String → Except PyErr Value)
    (regs : Registries) (p : Payload) : Except PyErr Dict :=
  match addRequired p [] ["name"] with
  | .error e => .error e
  | .ok base =>
  let d1 := addOptional p base ["description", "loggingLevel", "requirements"]
  match stepInsert (truthy (pyGet p "config")) "config"
      ((localNameOf p).map (fun l =>
        .str (fileToken BitmapRouterNode.objectType l "config.json"))) d1 with
  | .error e => .error e
  | .ok d2 =>
  match ((getItem p "receiveMessageType").bind (fun r => getItemV r "name")).bind
      (bucketGet regs.messageTypes) with
  | .error e => .error e
  | .ok ro =>
  let d3 := dinsert d2 "receive_message_type" (mkRef ro)
  match stepInsert (truthy (pyGet p "inlineBitmapper")) "inline_bitmapper"
      ((localNameOf p).map (fun l =>
        .str (fileToken BitmapRouterNode.objectType l "inline_bitmapper.py")))
      d3 with
  | .error e => .error e
  | .ok d4 =>
  match stepInsert (truthy (pyGet p "managedBitmapper")) "managed_bitmapper"
      (((getItemV (pyGet p "managedBitmapper") "name").bind
        (bucketGet regs.functions)).map mkRef) d4 with
  | .error e => .error e
  | .ok d5 =>
  match (match pyGetD p "routeTable" (.str "\x7b\x7d") with
        | .str s => loads s
        | _ => .error (.typeError "loads argument must be a string")) with
  | .error e => .error e
  | .ok rt => .ok (if truthy rt then dinsert d5 "route_table" rt else d5)

end Resources

/-! ## Document assembler (`__init__.py`, the
`always_merger.merge(target, fragment)` folds, e.g. lines 326-328)

Modelled from the spec: `always_merger` comes from the external `deepmerge`
package, so `mergeFragment` follows the specification text — nested maps
merge key by key recursively, any other collision is overwritten by the
fragment's value. -/

mutual

/-- `mergeFragment(target, fragment)`: deep merge of two documents. -/
def mergeFragment : Value → Value → Value
  | .dict td, .dict fd => .dict (mergeDictFrag td fd)
  | _, f => f
termination_by _t f => sizeOf f

/-- Merge every fragment entry into the target dict, in order. -/
def mergeDictFrag (t : Dict) : Dict → Dict
  | [] => t
  | (k, v) :: rest =>
      mergeDictFrag
        (match dlookup t k with
          | some old => dinsert t k (mergeFragment old v)
          | none => dinsert t k v)
        rest
termination_by f => sizeOf f

end

/-! ## Concrete inputs used in the evaluations below -/

/-- Does the character match `[a-z0-9_]`, the class of `^[a-z0-9_]*$`? -/
def isLowerLocalChar (c : Char) : Bool :=
  (97 ≤ c.toNat && c.toNat ≤ 122) || (48 ≤ c.toNat && c.toNat ≤ 57) ||
    c.toNat == 95

/-- A fresh run: all six registry buckets empty. -/
def regsEmpty : Registries := ⟨[], [], [], [], [], []⟩

/-- A managed node type payload with only the required fields. -/
def mntPayload : Payload :=
  [("name", .str "mnt"), ("description", .str "d"), ("imageUri", .str "img")]

/-- The same payload with a config template present. -/
def mntPayloadWithTemplate : Payload :=
  mntPayload ++ [("configTemplate", .str "tmpl")]

/-- A message type payload missing the required `description` but carrying
all four mandatory artifact fields. -/
def mtPayloadNoDescription : Payload :=
  [("name", .str "mt"), ("auditor", .str "a"), ("bitmapperTemplate", .str "b"),
    ("processorTemplate", .str "pt"), ("sampleMessage", .str "s")]

/-- A bitmap router node payload referencing message type `MT1`. -/
def brnPayload : Payload :=
  [("name", .str "rt"), ("receiveMessageType", .dict [("name", .str "MT1")])]

/-- Registries holding only the message type `MT1`. -/
def regsMT : Registries :=
  { regsEmpty with messageTypes := [("MT1", ⟨"echostream_message_type.mt1"⟩)] }

/-- A stand-in for `json.loads` that only ever returns an empty object. -/
def loadsEmpty : String → Except PyErr Value :=
  fun _ => .ok (.dict [])

/-- An edge payload between nodes `A` and `B`, encrypted with KMS key `K`. -/
def edgePayload : Payload :=
  [("source", .dict [("name", .str "A")]),
    ("target", .dict [("name", .str "B")]),
    ("kmsKey", .dict [("name", .str "K")])]

/-- Registries holding the two nodes and KMS key of `edgePayload`. -/
def regsEdge : Registries :=
  { regsEmpty with
      nodes := [("A", ⟨"echostream_external_node.a"⟩),
        ("B", ⟨"echostream_external_node.b"⟩)],
      kmsKeys := [("K", ⟨"echostream_kms_key.k"⟩)] }

/-- Registries holding an app `A1` and a message type `MT1`. -/
def regsAppMT : Registries :=
  { regsEmpty with
      apps := [("A1", ⟨"echostream_external_app.a1"⟩)],
      messageTypes := [("MT1", ⟨"echostream_message_type.mt1"⟩)] }

/-- A processor node payload with `sequentialProcessing` present. -/
def procPayloadSeq : Payload :=
  [("name", .str "pn"), ("receiveMessageType", .dict [("name", .str "MT1")]),
    ("sequentialProcessing", .bool true)]

/-- A processor node payload with `sequentialProcessing` absent. -/
def procPayloadNoSeq : Payload :=
  [("name", .str "pn"), ("receiveMessageType", .dict [("name", .str "MT1")])]

/-- A cross-tenant sending node payload with `sequentialProcessing` absent. -/
def ctsnPayloadNoSeq : Payload :=
  [("name", .str "cn"), ("app", .dict [("name", .str "A1")]),
    ("receiveMessageType", .dict [("name", .str "MT1")])]

/-- A payload consisting only of a name. -/
def namePayload : Payload := [("name", .str "mt")]

/-- An arbitrary constructed object to register. -/
def objX : TObj := ⟨"echostream_message_type.mt"⟩

/-- `regsEmpty` after registering `objX` under `"mt"` in `MESSAGE_TYPES`. -/
def regsAfterMT : Registries :=
  { regsEmpty with messageTypes := [("mt", objX)] }

/-- `register` puts the constructed object into the bucket selected by
`bucketOf` under the payload's name and leaves every entry under any other
name, in every bucket, unchanged. -/
def registersInto (bucketOf : Registries → Bucket)
    (register : Registries → Payload → TObj → Except PyErr Registries) :
    Prop :=
  ∀ (regs : Registries) (p : Payload) (self : TObj) (s : String)
    (regs2 : Registries),
    dlookup p "name" = some (.str s) →
    register regs p self = .ok regs2 →
    dlookup (bucketOf regs2) s = some self ∧
    ∀ n, n ≠ s →
      dlookup regs2.apps n = dlookup regs.apps n ∧
      dlookup regs2.functions n = dlookup regs.functions n ∧
      dlookup regs2.kmsKeys n = dlookup regs.kmsKeys n ∧
      dlookup regs2.managedNodeTypes n = dlookup regs.managedNodeTypes n ∧
      dlookup regs2.messageTypes n = dlookup regs.messageTypes n ∧
      dlookup regs2.nodes n = dlookup regs.nodes n

/-- Left operand of the merge associativity counterexample. -/
def mergeA : Value := .dict [("k", .dict [("x", .int 1)])]

/-- Middle operand: a non-map value under the same key. -/
def mergeB : Value := .dict [("k", .int 2)]

/-- Right operand: a map again under the same key. -/
def mergeC : Value := .dict [("k", .dict [("y", .int 3)])]

/-! ## Dictionary lemmas -/

theorem dlookup_dinsert_self {α : Type} (d : List (String × α)) (k : String)
    (v : α) : dlookup (dinsert d k v) k = some v := by
  induction d with
  | nil => simp [dinsert, dlookup]
  | cons hd tl ih =>
      obtain ⟨k2, w⟩ := hd
      by_cases h : k2 = k
      · simp [dinsert, h, dlookup]
      · simp [dinsert, h, dlookup, ih]

theorem dlookup_dinsert_ne {α : Type} (d : List (String × α)) {k k2 : String}
    (v : α) (h : k2 ≠ k) : dlookup (dinsert d k v) k2 = dlookup d k2 := by
  induction d with
  | nil => simp [dinsert, dlookup, Ne.symm h]
  | cons hd tl ih =>
      obtain ⟨k3, w⟩ := hd
      by_cases h3 : k3 = k
      · subst h3
        simp [dinsert, dlookup, Ne.symm h]
      · simp only [dinsert, if_neg h3, dlookup]
        by_cases h32 : k3 = k2
        · simp [h32]
        · simp [h32, ih]

theorem dlookup_ne_nil {α : Type} {d : List (String × α)} {k : String} {v : α}
    (h : dlookup d k = some v) : d ≠ [] := by
  intro he
  subst he
  simp [dlookup] at h

theorem addOptional_append (p : Payload) (d : Dict) (ks1 ks2 : List String) :
    addOptional p d (ks1 ++ ks2) = addOptional p (addOptional p d ks1) ks2 := by
  induction ks1 generalizing d with
  | nil => simp [addOptional]
  | cons k ks ih => simp [addOptional, ih]

theorem dlookup_addOptional_ne (p : Payload) (d : Dict) (ks : List String)
    (t : String) (h : ∀ K ∈ ks, convertKey K ≠ t) :
    dlookup (addOptional p d ks) t = dlookup d t := by
  induction ks generalizing d with
  | nil => rfl
  | cons k ks ih =>
      simp only [addOptional]
      rw [ih _ (fun K hK => h K (List.mem_cons_of_mem _ hK))]
      split
      · rfl
      · exact dlookup_dinsert_ne _ _ (Ne.symm (h k (List.mem_cons_self _ _)))

theorem stepInsert_ok_lookup_ne {c : Bool} {key : String}
    {v : Except PyErr Value} {d d2 : Dict} {t : String}
    (h : stepInsert c key v d = .ok d2) (hne : key ≠ t) :
    dlookup d2 t = dlookup d t := by
  unfold stepInsert at h
  split at h
  · cases v with
    | error e => simp [Except.map] at h
    | ok w =>
        simp only [Except.map] at h
        injection h with h3
        subst h3
        exact dlookup_dinsert_ne _ _ (Ne.symm hne)
  · injection h with h3
    subst h3
    rfl

theorem truthy_dict_of_dlookup {kd : Dict} {k2 : String} {v : Value}
    (h2 : dlookup kd k2 = some v) : truthy (Value.dict kd) = true := by
  cases kd with
  | nil => simp [dlookup] at h2
  | cons a l => simp [truthy]

theorem dlookup_seq_optional (p : Payload) (base : Dict)
    (hbase : dlookup base "sequential_processing" = none) :
    dlookup (addOptional p base
        ["description", "loggingLevel", "requirements",
          "sequentialProcessing"]) "sequential_processing" =
    (if (pyGet p "sequentialProcessing").isNull then none
      else some (convertValue (pyGet p "sequentialProcessing"))) := by
  rw [show ["description", "loggingLevel", "requirements",
        "sequentialProcessing"]
      = ["description", "loggingLevel", "requirements"] ++
        ["sequentialProcessing"] from rfl, addOptional_append]
  have h3 : dlookup (addOptional p base
      ["description", "loggingLevel", "requirements"])
      "sequential_processing" = none := by
    rw [dlookup_addOptional_ne _ _ _ _ (by decide)]
    exact hbase
  have hstep : addOptional p (addOptional p base
      ["description", "loggingLevel", "requirements"])
      ["sequentialProcessing"]
      = if (pyGet p "sequentialProcessing").isNull then
          addOptional p base ["description", "loggingLevel", "requirements"]
        else
          dinsert (addOptional p base
            ["description", "loggingLevel", "requirements"])
            "sequential_processing"
            (convertValue (pyGet p "sequentialProcessing")) := rfl
  rw [hstep]
  by_cases hn : (pyGet p "sequentialProcessing").isNull = true
  · rw [if_pos hn, if_pos hn, h3]
  · rw [Bool.not_eq_true] at hn
    rw [if_neg (by simp [hn]), if_neg (by simp [hn]), dlookup_dinsert_self]

/-! ## Character lemmas for the identifier normalizer -/

theorem char_toNat_ofNat (n : Nat) (h : n < 55296) :
    (Char.ofNat n).toNat = n := by
  have hv : n < 55296 ∨ 57343 < n ∧ n < 1114112 := Or.inl h
  simp [Char.ofNat, hv, Char.ofNatAux, Char.toNat, UInt32.toNat,
    BitVec.toNat_ofNat]

theorem convChar_mem (c : Char) :
    isLowerLocalChar (pyLowerChar (localNameSubChar c)) = true := by
  unfold localNameSubChar
  by_cases hloc : isLocalNameChar c = true
  · rw [if_pos hloc]
    simp only [isLocalNameChar, Bool.or_eq_true, Bool.and_eq_true,
      decide_eq_true_eq, beq_iff_eq] at hloc
    unfold pyLowerChar
    split
    · rename_i hup
      simp only [Bool.and_eq_true, decide_eq_true_eq] at hup
      have hofn : (Char.ofNat (c.toNat + 32)).toNat = c.toNat + 32 :=
        char_toNat_ofNat _ (by omega)
      simp only [isLowerLocalChar, hofn, Bool.or_eq_true, Bool.and_eq_true,
        decide_eq_true_eq, beq_iff_eq]
      omega
    · rename_i hup
      simp only [Bool.and_eq_true, decide_eq_true_eq, not_and] at hup
      simp only [isLowerLocalChar, Bool.or_eq_true, Bool.and_eq_true,
        decide_eq_true_eq, beq_iff_eq]
      omega
  · rw [if_neg hloc]
    decide

theorem convChar_fixed (c : Char) (h : isLowerLocalChar c = true) :
    pyLowerChar (localNameSubChar c) = c := by
  simp only [isLowerLocalChar, Bool.or_eq_true, Bool.and_eq_true,
    decide_eq_true_eq, beq_iff_eq] at h
  have hloc : isLocalNameChar c = true := by
    simp only [isLocalNameChar, Bool.or_eq_true, Bool.and_eq_true,
      decide_eq_true_eq, beq_iff_eq]
    omega
  unfold localNameSubChar
  rw [if_pos hloc]
  unfold pyLowerChar
  split
  · rename_i hup
    simp only [Bool.and_eq_true, decide_eq_true_eq] at hup
    exfalso
    omega
  · rfl

theorem convList_idem (l : List Char) :
    ((((l.map localNameSubChar).map pyLowerChar).map
        localNameSubChar).map pyLowerChar)
      = (l.map localNameSubChar).map pyLowerChar := by
  induction l with
  | nil => rfl
  | cons c t ih =>
      simp only [List.map_cons]
      rw [convChar_fixed _ (convChar_mem c)]
      rw [show ((((t.map localNameSubChar).map pyLowerChar).map
          localNameSubChar).map pyLowerChar)
        = (t.map localNameSubChar).map pyLowerChar from ih]

/-! ## Claim theorems -/

/-- Claim C1 (the code diverges): at a managed node type payload holding
exactly the required fields, `encode` emits the one-entry nested map whose
innermost value is a one-element tuple wrapping the attribute map — not
the attribute map itself — because `ManagedNodeType._attributes` reads
`attributes = (super()._attributes,)`; and as soon as an optional field
such as `configTemplate` is present, the attribute computation raises
`TypeError` from item assignment on that tuple. -/
theorem claim1_managed_node_type_tuple :
    Resources.ManagedNodeType.encode regsEmpty mntPayload =
      (.ok (.dict [("resource", .dict [("echostream_managed_node_type",
        .dict [("mnt", .tuple [.dict [("description", .str "d"),
          ("image_uri", .str "img"), ("name", .str "mnt")]])])])]), []) ∧
    Resources.ManagedNodeType.attrs regsEmpty mntPayloadWithTemplate =
      .error (.typeError "tuple object does not support item assignment") :=
  ⟨rfl, rfl⟩

/-- Claim C2 counterexample: a message type payload missing the required
`description` but carrying its artifact fields does produce artifact
files — `MessageType.encode` writes all four artifacts before the base
`encode` computes the attributes — and the failure is a `KeyError` naming
only the missing key. -/
theorem claim2_counterexample :
    Resources.MessageType.encode mtPayloadNoDescription =
      (.error (.keyError "description"),
        [("artifacts/echostream_message_type/mt/auditor.py", "a"),
          ("artifacts/echostream_message_type/mt/bitmapper_template.py", "b"),
          ("artifacts/echostream_message_type/mt/processor_template.py", "pt"),
          ("artifacts/echostream_message_type/mt/sample_message.txt", "s")]) ∧
    (Resources.MessageType.encode mtPayloadNoDescription).2 ≠ [] := by
  refine ⟨rfl, ?_⟩
  intro h
  rw [show (Resources.MessageType.encode mtPayloadNoDescription).2 =
      [("artifacts/echostream_message_type/mt/auditor.py", "a"),
        ("artifacts/echostream_message_type/mt/bitmapper_template.py", "b"),
        ("artifacts/echostream_message_type/mt/processor_template.py", "pt"),
        ("artifacts/echostream_message_type/mt/sample_message.txt", "s")]
    from rfl] at h
  cases h

/-- Claim C2 (amended): computing the attributes of a payload missing a
declared required key fails with a `KeyError` naming a missing required
key (the first one in declaration order); in particular a `MessageType`
payload missing `description` fails with `KeyError("description")`.  The
attribute computation itself performs no filesystem writes, but `encode`
may already have written artifacts (see the counterexample). -/
theorem claim2_missing_required_key :
    (∀ (p : Payload) (req : List String) (d : Dict),
        (∃ k, k ∈ req ∧ dlookup p k = none) →
        ∃ k, k ∈ req ∧ dlookup p k = none ∧
          addRequired p d req = .error (.keyError k)) ∧
    (∀ p : Payload, dlookup p "description" = none →
        Resources.MessageType.attrs p = .error (.keyError "description")) := by
  constructor
  · intro p req
    induction req with
    | nil =>
        rintro d ⟨k, hk, _⟩
        exact absurd hk (List.not_mem_nil k)
    | cons k ks ih =>
        rintro d ⟨k2, hk2, hnone⟩
        cases hlk : dlookup p k with
        | none =>
            exact ⟨k, List.mem_cons_self _ _, hlk, by simp [addRequired, hlk]⟩
        | some v =>
            have hk2m : k2 ∈ ks := by
              rcases List.mem_cons.mp hk2 with rfl | hmem
              · rw [hlk] at hnone; cases hnone
              · exact hmem
            obtain ⟨k3, h3m, h3n, h3e⟩ :=
              ih (dinsert d (convertKey k) (convertValue v)) ⟨k2, hk2m, hnone⟩
            exact ⟨k3, List.mem_cons_of_mem _ h3m, h3n,
              by simp [addRequired, hlk, h3e]⟩
  · intro p h
    simp [Resources.MessageType.attrs, addRequired, h]

/-- Witness for claim C2: a concrete payload with a name only. -/
theorem claim2_witness :
    Resources.MessageType.attrs namePayload = .error (.keyError "description") :=
  claim2_missing_required_key.2 namePayload rfl

/-- Claim C4 counterexample: a resource address does not carry the
`resource.` prefix the claim asserts. -/
theorem claim4_counterexample :
    Resource.address "echostream_message_type" "m" ≠
      "resource.echostream_message_type.m" := by
  decide

/-- Claim C4 (amended): `Resource.address` is
`objectType ++ "." ++ localIdentifier`, with no `resource.` prefix — as
`terraform import` expects — while `DataSource.address` is
`"data." ++ objectType ++ "." ++ localIdentifier`. -/
theorem claim4_address_shapes :
    ∀ objectType localName : String,
      Resource.address objectType localName =
        objectType ++ "." ++ localName ∧
      DataSource.address objectType localName =
        "data." ++ objectType ++ "." ++ localName ∧
      Resource.address objectType localName ≠
        "resource." ++ objectType ++ "." ++ localName := by
  intro t l
  refine ⟨rfl, rfl, fun h => ?_⟩
  have h2 := congrArg String.length h
  simp only [Resource.address, String.length_append] at h2
  rw [show ("." : String).length = 1 from rfl,
    show ("resource." : String).length = 9 from rfl] at h2
  omega

/-- Claim C8: `toLocalIdentifier` (the embedding of
`TerraformObject._convert_to_local_name`) only emits characters matching
`[a-z0-9_]` and is idempotent. -/
theorem claim8_local_name_class_and_idempotent :
    ∀ s : String,
      (convertToLocalName s).toList.all isLowerLocalChar = true ∧
      convertToLocalName (convertToLocalName s) = convertToLocalName s := by
  intro s
  constructor
  · show ((s.toList.map localNameSubChar).map pyLowerChar).all _ = true
    induction s.toList with
    | nil => rfl
    | cons c t ih =>
        simp only [List.map_cons, List.all_cons, ih, convChar_mem c,
          Bool.and_self]
  · exact congrArg String.mk (convList_idem s.toList)

/-- Claim C10 counterexample: the deep merge is not associative — merging
a nested map, then a scalar, then a nested map under one key gives
different results in the two association orders. -/
theorem claim10_counterexample :
    mergeFragment (mergeFragment mergeA mergeB) mergeC ≠
      mergeFragment mergeA (mergeFragment mergeB mergeC) := by
  have h1 : mergeFragment (mergeFragment mergeA mergeB) mergeC =
      Value.dict [("k", Value.dict [("y", Value.int 3)])] := by
    simp [mergeA, mergeB, mergeC, mergeFragment, mergeDictFrag, dlookup,
      dinsert]
  have h2 : mergeFragment mergeA (mergeFragment mergeB mergeC) =
      Value.dict [("k", Value.dict [("x", Value.int 1),
        ("y", Value.int 3)])] := by
    simp [mergeA, mergeB, mergeC, mergeFragment, mergeDictFrag, dlookup,
      dinsert]
  rw [h1, h2]
  intro h
  simp at h

/-- Claim C10 (amended): nested maps merge key by key recursively and a
non-map collision takes the fragment's value; on the spec's example the
direct merge and the left fold from the empty document both yield
`a: x: 1, y: 2`, and a left fold over an ordered sequence of fragments is
by definition the pairwise left-to-right merge — but the merge is not
associative in general (see the counterexample). -/
theorem claim10_merge_example_and_fold :
    mergeFragment (Value.dict [("a", .dict [("x", .int 1)])])
        (Value.dict [("a", .dict [("y", .int 2)])]) =
      Value.dict [("a", .dict [("x", .int 1), ("y", .int 2)])] ∧
    List.foldl mergeFragment (Value.dict [])
        [Value.dict [("a", .dict [("x", .int 1)])],
          Value.dict [("a", .dict [("y", .int 2)])]] =
      Value.dict [("a", .dict [("x", .int 1), ("y", .int 2)])] ∧
    (∀ x a b c : Value,
      List.foldl mergeFragment x [a, b, c] =
        mergeFragment (mergeFragment (mergeFragment x a) b) c) := by
  refine ⟨?_, ?_, fun x a b c => rfl⟩
  · simp [mergeFragment, mergeDictFrag, dlookup, dinsert]
  · simp [mergeFragment, mergeDictFrag, dlookup, dinsert]

/-- Claim C6: an edge's identity is the source name, a literal `|`, and
the target name — built from the two referenced names, not from any
attribute key of the edge payload — and its local identifier is the
normalized form of that string. -/
theorem claim6_edge_identity :
    ∀ (p : Payload) (sd td : Dict) (a b : String),
      dlookup p "source" = some (.dict sd) →
      dlookup sd "name" = some (.str a) →
      dlookup p "target" = some (.dict td) →
      dlookup td "name" = some (.str b) →
      Resources.Edge.identity p = .ok (a ++ "|" ++ b) ∧
      Resources.Edge.localName p =
        .ok (convertToLocalName (a ++ "|" ++ b)) := by
  intro p sd td a b hs hsn ht htn
  have hid : Resources.Edge.identity p = .ok (a ++ "|" ++ b) := by
    simp [Resources.Edge.identity, getItem, getItemV, hs, hsn, ht, htn]
  refine ⟨hid, ?_⟩
  rw [Resources.Edge.localName, hid]
  rfl

/-- Witness for claim C6: the edge from node `A` to node `B`. -/
theorem claim6_witness :
    Resources.Edge.identity edgePayload = .ok "A|B" ∧
    Resources.Edge.localName edgePayload = .ok "a_b" := by
  have h := claim6_edge_identity edgePayload [("name", .str "A")]
    [("name", .str "B")] "A" "B" rfl rfl rfl rfl
  refine ⟨h.1, ?_⟩
  rw [h.2]
  rfl

theorem registerName_ok (b : Bucket) (p : Payload) (self : TObj)
    (s : String) (h : dlookup p "name" = some (.str s)) :
    registerName b p self = .ok (dinsert b s self) := by
  simp [registerName, h]

/-- Claim C9: each name-keyed constructor — the app, function, node,
KMS-key, managed-node-type and message-type resources and the name-keyed
data-source variants — registers the constructed object in its kind's
bucket under the payload's `name`, and leaves every entry under any other
name, in every bucket, unchanged. -/
theorem claim9_construction_registers :
    registersInto (fun r => r.apps) Resources.AppResource.register ∧
    registersInto (fun r => r.functions) Resources.FunctionResource.register ∧
    registersInto (fun r => r.nodes) Resources.NodeResource.register ∧
    registersInto (fun r => r.kmsKeys) Resources.KmsKey.register ∧
    registersInto (fun r => r.managedNodeTypes)
      Resources.ManagedNodeType.register ∧
    registersInto (fun r => r.messageTypes) Resources.MessageType.register ∧
    registersInto (fun r => r.nodes) DataSources.NodeDataSource.register ∧
    registersInto (fun r => r.functions)
      DataSources.FunctionDataSource.register ∧
    registersInto (fun r => r.managedNodeTypes)
      DataSources.ManagedNodeType.register ∧
    registersInto (fun r => r.messageTypes) DataSources.MessageType.register := by
  refine ⟨?_, ?_, ?_, ?_, ?_, ?_, ?_, ?_, ?_, ?_⟩ <;>
  · intro regs p self s regs2 hname hreg
    simp only [Resources.AppResource.register,
      Resources.FunctionResource.register, Resources.NodeResource.register,
      Resources.KmsKey.register, Resources.ManagedNodeType.register,
      Resources.MessageType.register, DataSources.NodeDataSource.register,
      DataSources.FunctionDataSource.register,
      DataSources.ManagedNodeType.register, DataSources.MessageType.register,
      registerName_ok _ _ _ _ hname, Except.map] at hreg
    injection hreg with h2
    subst h2
    refine ⟨dlookup_dinsert_self _ _ _, fun n hn => ?_⟩
    refine ⟨?_, ?_, ?_, ?_, ?_, ?_⟩ <;>
      first
        | rfl
        | exact dlookup_dinsert_ne _ _ hn

/-- Witness for claim C9: registering a message type named `mt` into
empty registries. -/
theorem claim9_witness :
    dlookup regsAfterMT.messageTypes "mt" = some objX :=
  (claim9_construction_registers.2.2.2.2.2.1 regsEmpty namePayload objX
    "mt" regsAfterMT rfl rfl).1

/-- Claim C3 counterexample: resolving a cross-reference whose name was
never registered raises a plain `KeyError` carrying only the missing key
(`str()` of the exception is the quoted key); the repository defines no
`UnresolvedReferenceError` and the raised error does not name the bucket. -/
theorem claim3_counterexample :
    Resources.BitmapRouterNode.attrs loadsEmpty regsEmpty brnPayload =
      .error (.keyError "MT1") ∧
    PyErr.message (.keyError "MT1") = "\x27MT1\x27" :=
  ⟨rfl, rfl⟩

/-- Claim C3 (amended): a miss in the target bucket fails with
`KeyError` naming the missing key; a hit stores a reference whose
encoding is exactly the interpolation of the target's address, never the
literal name. -/
theorem claim3_reference_resolution :
    ∀ (loads : String → Except PyErr Value) (regs : Registries)
      (p : Payload) (rd : Dict) (nm n : String),
      dlookup p "name" = some (.str nm) →
      dlookup p "receiveMessageType" = some (.dict rd) →
      dlookup rd "name" = some (.str n) →
      (dlookup regs.messageTypes n = none →
        Resources.BitmapRouterNode.attrs loads regs p =
          .error (.keyError n)) ∧
      (∀ o d, dlookup regs.messageTypes n = some o →
        Resources.BitmapRouterNode.attrs loads regs p = .ok d →
        dlookup d "receive_message_type" = some (mkRef o) ∧
        refEncode o.address = "$\x7b" ++ o.address ++ ".name\x7d") := by
  intro loads regs p rd nm n hnm hr hrn
  constructor
  · intro hnone
    cases hc : truthy (pyGet p "config") <;>
      simp [Resources.BitmapRouterNode.attrs, addRequired, hnm, getItem,
        getItemV, hr, hrn, bucketGet, hnone, localNameOf, stepInsert, hc,
        Except.map, Except.bind]
  · intro o d hsome hok
    refine ⟨?_, rfl⟩
    simp only [Resources.BitmapRouterNode.attrs, addRequired, hnm, getItem,
      getItemV, hr, hrn, bucketGet, hsome, localNameOf, Except.bind] at hok
    split at hok
    · simp at hok
    · rename_i d2 heq2
      split at hok
      · simp at hok
      · rename_i d4 heq4
        split at hok
        · simp at hok
        · rename_i d5 heq5
          split at hok
          · simp at hok
          · rename_i rt heqrt
            injection hok with hok2
            subst hok2
            have h5 : dlookup d5 "receive_message_type" = some (mkRef o) := by
              rw [stepInsert_ok_lookup_ne heq5 (by decide)]
              rw [stepInsert_ok_lookup_ne heq4 (by decide)]
              exact dlookup_dinsert_self _ _ _
            split
            · rw [dlookup_dinsert_ne _ _ (by decide)]
              exact h5
            · exact h5

/-- Witness for claim C3: resolving `MT1`, registered in `regsMT`, from a
bitmap router node payload. -/
theorem claim3_witness :
    dlookup [("name", Value.str "rt"),
        ("receive_message_type", Value.ref "echostream_message_type.mt1")]
      "receive_message_type" = some (mkRef ⟨"echostream_message_type.mt1"⟩) ∧
    refEncode "echostream_message_type.mt1" =
      "$\x7b" ++ "echostream_message_type.mt1" ++ ".name\x7d" :=
  (claim3_reference_resolution loadsEmpty regsMT brnPayload
    [("name", .str "MT1")] "rt" "MT1" rfl rfl rfl).2
    ⟨"echostream_message_type.mt1"⟩
    [("name", Value.str "rt"),
      ("receive_message_type", Value.ref "echostream_message_type.mt1")]
    rfl rfl

/-- Claim C5: the `Edge` KMS-key branch and the `CrossTenantSendingNode`
managed-processor and send-message-type branches call
`TerraformObjectReference(obj=..., attr="name")`, whose constructor
accepts only `obj`, so whenever those optional cross-references are
present and resolvable the attribute computation raises `TypeError`. -/
theorem claim5_attr_keyword_type_error :
    (∀ (regs : Registries) (p : Payload) (sd td kd : Dict)
      (sn tn kn : String) (so tgt ko : TObj),
      dlookup p "source" = some (.dict sd) →
      dlookup sd "name" = some (.str sn) →
      dlookup regs.nodes sn = some so →
      dlookup p "target" = some (.dict td) →
      dlookup td "name" = some (.str tn) →
      dlookup regs.nodes tn = some tgt →
      dlookup p "kmsKey" = some (.dict kd) →
      dlookup kd "name" = some (.str kn) →
      dlookup regs.kmsKeys kn = some ko →
      Resources.Edge.attrs regs p =
        .error (.typeError
          "TerraformObjectReference takes no keyword argument attr")) ∧
    (∀ (regs : Registries) (p : Payload) (ad rd md : Dict)
      (nm an rn mn : String) (ao ro mo : TObj),
      dlookup p "name" = some (.str nm) →
      dlookup p "app" = some (.dict ad) →
      dlookup ad "name" = some (.str an) →
      dlookup regs.apps an = some ao →
      dlookup p "receiveMessageType" = some (.dict rd) →
      dlookup rd "name" = some (.str rn) →
      dlookup regs.messageTypes rn = some ro →
      dlookup p "managedProcessor" = some (.dict md) →
      dlookup md "name" = some (.str mn) →
      dlookup regs.functions mn = some mo →
      Resources.CrossTenantSendingNode.attrs regs p =
        .error (.typeError
          "TerraformObjectReference takes no keyword argument attr")) ∧
    (∀ (regs : Registries) (p : Payload) (ad rd smd : Dict)
      (nm an rn smn : String) (ao ro smo : TObj),
      dlookup p "name" = some (.str nm) →
      dlookup p "app" = some (.dict ad) →
      dlookup ad "name" = some (.str an) →
      dlookup regs.apps an = some ao →
      dlookup p "receiveMessageType" = some (.dict rd) →
      dlookup rd "name" = some (.str rn) →
      dlookup regs.messageTypes rn = some ro →
      pyGet p "managedProcessor" = Value.null →
      dlookup p "sendMessageType" = some (.dict smd) →
      dlookup smd "name" = some (.str smn) →
      dlookup regs.messageTypes smn = some smo →
      Resources.CrossTenantSendingNode.attrs regs p =
        .error (.typeError
          "TerraformObjectReference takes no keyword argument attr")) := by
  refine ⟨?_, ?_, ?_⟩
  · intro regs p sd td kd sn tn kn so tgt ko hs hsn hns ht htn hnt hk hkn hnk
    have hpk : pyGet p "kmsKey" = Value.dict kd := by simp [pyGet, hk]
    have htr : truthy (Value.dict kd) = true := truthy_dict_of_dlookup hkn
    simp [Resources.Edge.attrs, getItem, getItemV, hs, hsn, hns, ht, htn,
      hnt, bucketGet, hpk, hkn, hnk, stepInsert, htr, Except.bind,
      Except.map, refCallWithAttr]
  · intro regs p ad rd md nm an rn mn ao ro mo hnm ha han hna hr hrn hnr
      hm hmn hnmgr
    have hpm : pyGet p "managedProcessor" = Value.dict md := by
      simp [pyGet, hm]
    have htm : truthy (Value.dict md) = true := truthy_dict_of_dlookup hmn
    cases hc : truthy (pyGet p "config") <;>
      cases hip : truthy (pyGet p "inlineProcessor") <;>
        simp [Resources.CrossTenantSendingNode.attrs, addRequired, hnm,
          getItem, getItemV, ha, han, hna, hr, hrn, hnr, hpm, hmn, hnmgr,
          bucketGet, stepInsert, htm, hc, hip, localNameOf, Except.bind,
          Except.map, refCallWithAttr]
  · intro regs p ad rd smd nm an rn smn ao ro smo hnm ha han hna hr hrn hnr
      hmnull hsm hsmn hnsm
    have hpsm : pyGet p "sendMessageType" = Value.dict smd := by
      simp [pyGet, hsm]
    have htmf : truthy (pyGet p "managedProcessor") = false := by
      rw [hmnull]
      rfl
    have htsm : truthy (Value.dict smd) = true := truthy_dict_of_dlookup hsmn
    cases hc : truthy (pyGet p "config") <;>
      cases hip : truthy (pyGet p "inlineProcessor") <;>
        simp [Resources.CrossTenantSendingNode.attrs, addRequired, hnm,
          getItem, getItemV, ha, han, hna, hr, hrn, hnr, hpsm, hsmn, hnsm,
          bucketGet, stepInsert, htmf, htsm, hc, hip, localNameOf,
          Except.bind, Except.map, refCallWithAttr]

/-- Witness for claim C5: the edge `A -> B` with KMS key `K`, all
registered, fails with the `TypeError`. -/
theorem claim5_witness :
    Resources.Edge.attrs regsEdge edgePayload =
      .error (.typeError
        "TerraformObjectReference takes no keyword argument attr") :=
  claim5_attr_keyword_type_error.1 regsEdge edgePayload
    [("name", .str "A")] [("name", .str "B")] [("name", .str "K")]
    "A" "B" "K" ⟨"echostream_external_node.a"⟩
    ⟨"echostream_external_node.b"⟩ ⟨"echostream_kms_key.k"⟩
    rfl rfl rfl rfl rfl rfl rfl rfl rfl

/-- Claim C7: whenever the attribute computation of a `ProcessorNode` or a
`CrossTenantSendingNode` succeeds, the result carries
`sequential_processing` — the payload's boolean when
`sequentialProcessing` is present, and `false` when it is absent. -/
theorem claim7_sequential_processing_default :
    (∀ (regs : Registries) (p : Payload) (d : Dict),
      Resources.ProcessorNode.attrs regs p = .ok d →
      ((∀ b, dlookup p "sequentialProcessing" = some (.bool b) →
          dlookup d "sequential_processing" = some (.bool b)) ∧
        (dlookup p "sequentialProcessing" = none →
          dlookup d "sequential_processing" = some (.bool false)))) ∧
    (∀ (regs : Registries) (p : Payload) (d : Dict),
      Resources.CrossTenantSendingNode.attrs regs p = .ok d →
      ((∀ b, dlookup p "sequentialProcessing" = some (.bool b) →
          dlookup d "sequential_processing" = some (.bool b)) ∧
        (dlookup p "sequentialProcessing" = none →
          dlookup d "sequential_processing" = some (.bool false)))) := by
  constructor
  · intro regs p d hok
    simp only [Resources.ProcessorNode.attrs] at hok
    split at hok
    · simp at hok
    · rename_i base heqb
      split at hok
      · simp at hok
      · rename_i d2 heq2
        split at hok
        · simp at hok
        · rename_i ro heqr
          split at hok
          · simp at hok
          · rename_i d4 heq4
            split at hok
            · simp at hok
            · rename_i d5 heq5
              split at hok
              · simp at hok
              · rename_i d6 heq6
                injection hok with hok2
                subst hok2
                have hb : dlookup base "sequential_processing" = none := by
                  simp only [addRequired] at heqb
                  split at heqb
                  · rename_i v hv
                    injection heqb with h3
                    subst h3
                    simp [dinsert, dlookup]
                    decide
                  · simp at heqb
                have h1 : dlookup d6 "sequential_processing" =
                    dlookup (addOptional p base
                      ["description", "loggingLevel", "requirements",
                        "sequentialProcessing"]) "sequential_processing" := by
                  rw [stepInsert_ok_lookup_ne heq6 (by decide),
                    stepInsert_ok_lookup_ne heq5 (by decide),
                    stepInsert_ok_lookup_ne heq4 (by decide),
                    dlookup_dinsert_ne _ _ (by decide),
                    stepInsert_ok_lookup_ne heq2 (by decide)]
                constructor
                · intro b hsb
                  have hps : pyGet p "sequentialProcessing" = Value.bool b := by
                    simp [pyGet, hsb]
                  rw [dlookup_dinsert_self, h1,
                    dlookup_seq_optional p base hb, hps]
                  simp [Value.isNull, convertValue]
                · intro hnone
                  have hps : pyGet p "sequentialProcessing" = Value.null := by
                    simp [pyGet, hnone]
                  rw [dlookup_dinsert_self, h1,
                    dlookup_seq_optional p base hb, hps]
                  simp [Value.isNull]
  · intro regs p d hok
    simp only [Resources.CrossTenantSendingNode.attrs] at hok
    split at hok
    · simp at hok
    · rename_i base heqb
      split at hok
      · simp at hok
      · rename_i d2 heq2
        split at hok
        · simp at hok
        · rename_i ao heqa
          split at hok
          · simp at hok
          · rename_i ro heqr
            split at hok
            · simp at hok
            · rename_i d4 heq4
              split at hok
              · simp at hok
              · rename_i d5 heq5
                split at hok
                · simp at hok
                · rename_i d6 heq6
                  injection hok with hok2
                  subst hok2
                  have hb : dlookup base "sequential_processing" = none := by
                    simp only [addRequired] at heqb
                    split at heqb
                    · rename_i v hv
                      injection heqb with h3
                      subst h3
                      simp [dinsert, dlookup]
                      decide
                    · simp at heqb
                  have h1 : dlookup d6 "sequential_processing" =
                      dlookup (addOptional p base
                        ["description", "loggingLevel", "requirements",
                          "sequentialProcessing"]) "sequential_processing" := by
                    rw [stepInsert_ok_lookup_ne heq6 (by decide),
                      stepInsert_ok_lookup_ne heq5 (by decide),
                      stepInsert_ok_lookup_ne heq4 (by decide),
                      dlookup_dinsert_ne _ _ (by decide),
                      dlookup_dinsert_ne _ _ (by decide),
                      stepInsert_ok_lookup_ne heq2 (by decide)]
                  constructor
                  · intro b hsb
                    have hps : pyGet p "sequentialProcessing" =
                        Value.bool b := by
                      simp [pyGet, hsb]
                    rw [dlookup_dinsert_self, h1,
                      dlookup_seq_optional p base hb, hps]
                    simp [Value.isNull, convertValue]
                  · intro hnone
                    have hps : pyGet p "sequentialProcessing" =
                        Value.null := by
                      simp [pyGet, hnone]
                    rw [dlookup_dinsert_self, h1,
                      dlookup_seq_optional p base hb, hps]
                    simp [Value.isNull]

/-- Witness for claim C7: a processor node with the flag present keeps it,
one without it gets `false`, and a cross-tenant sending node without it
gets `false`. -/
theorem claim7_witness :
    dlookup [("name", Value.str "pn"),
        ("sequential_processing", Value.bool true),
        ("receive_message_type", Value.ref "echostream_message_type.mt1")]
      "sequential_processing" = some (Value.bool true) ∧
    dlookup [("name", Value.str "pn"),
        ("receive_message_type", Value.ref "echostream_message_type.mt1"),
        ("sequential_processing", Value.bool false)]
      "sequential_processing" = some (Value.bool false) ∧
    dlookup [("name", Value.str "cn"),
        ("app", Value.ref "echostream_external_app.a1"),
        ("receive_message_type", Value.ref "echostream_message_type.mt1"),
        ("sequential_processing", Value.bool false)]
      "sequential_processing" = some (Value.bool false) :=
  ⟨(claim7_sequential_processing_default.1 regsAppMT procPayloadSeq
      [("name", Value.str "pn"),
        ("sequential_processing", Value.bool true),
        ("receive_message_type", Value.ref "echostream_message_type.mt1")]
      rfl).1 true rfl,
    (claim7_sequential_processing_default.1 regsAppMT procPayloadNoSeq
      [("name", Value.str "pn"),
        ("receive_message_type", Value.ref "echostream_message_type.mt1"),
        ("sequential_processing", Value.bool false)]
      rfl).2 rfl,
    (claim7_sequential_processing_default.2 regsAppMT ctsnPayloadNoSeq
      [("name", Value.str "cn"),
        ("app", Value.ref "echostream_external_app.a1"),
        ("receive_message_type", Value.ref "echostream_message_type.mt1"),
        ("sequential_processing", Value.bool false)]
      rfl).2 rfl⟩

end EchostreamTerrafy
